import Mathlib

/-!
Verification of the 360-photo-viewer floorplan overlay scripts.

Shallow embedding of the two script variants:
  * `src/walkarounds/2025.07.29/index.js` (the "clean" variant), and
  * `src/walkarounds/2025.08.05/index.js`.

JS numbers are modelled as rationals (ℚ); absent object fields as `Option`;
the DOM marker population as lists of dot records; asynchronous fetch
outcomes as an explicit result type.
-/

namespace Walkarounds

/-- A hotspot record parsed from `hotspots.json`.  Fields that may be absent
in the JSON object are `Option`s (`none` models JS `undefined`). -/
structure Hotspot where
  x : Option ℚ
  y : Option ℚ
  photo : Option String
  filename : Option String
deriving DecidableEq, Repr

/-- JS `a || b` where `a` is a possibly-absent number: `undefined` and `0`
are falsy, so they yield `b`; any other number yields itself. -/
def jsOrNum (a : Option ℚ) (b : ℚ) : ℚ :=
  match a with
  | none => b
  | some v => if v = 0 then b else v

/-- JS `a || b` on two numbers (`a` falsy exactly when it is `0`). -/
def jsOrQ (a b : ℚ) : ℚ :=
  if a = 0 then b else a

/-- JS `a || b` where `a` is a possibly-absent string: `undefined` and the
empty string are falsy. -/
def jsOrStr (a : Option String) (b : String) : String :=
  match a with
  | none => b
  | some s => if s = "" then b else s

/-- JS truthiness of a possibly-absent string (used by `if (hp.photo)`). -/
def jsTruthyStr : Option String → Bool
  | none => false
  | some s => !(s == "")

/-- Result of `getBoundingClientRect()` on the floorplan image. -/
structure Rect where
  width : ℚ
  height : ℚ
deriving DecidableEq, Repr

/-- The floorplan `<img>` element state the scripts read. -/
structure FloorplanImg where
  rect : Rect
  naturalWidth : ℚ
  naturalHeight : ℚ
  complete : Bool
deriving DecidableEq, Repr

/-- A marker element created by the clean variant's `renderDots`
(`src/walkarounds/2025.07.29/index.js`, lines 87-114): absolute pixel
offsets, tooltip text, and the `photo` path captured by its click handler. -/
structure CleanDot where
  left : ℚ
  top : ℚ
  title : String
  photo : Option String
deriving DecidableEq, Repr

/-- The marker the clean variant builds for hotspot `hp` at iteration index
`index` (0-based), given the resolved drawing size `width` × `height`:
`x = (hp.x || 0) * width`, `y = (hp.y || 0) * height`,
`title = hp.filename || "Scene " + (index+1)`. -/
def mkCleanDot (width height : ℚ) (index : ℕ) (hp : Hotspot) : CleanDot :=
  { left := jsOrNum hp.x 0 * width
    top := jsOrNum hp.y 0 * height
    title := jsOrStr hp.filename ("Scene " ++ toString (index + 1))
    photo := hp.photo }

/-- The `hotspots.forEach((hp, index) => …)` loop of `renderDots`, carrying
the running index. -/
def renderDotsAux (width height : ℚ) : ℕ → List Hotspot → List CleanDot
  | _, [] => []
  | index, hp :: rest =>
    mkCleanDot width height index hp :: renderDotsAux width height (index + 1) rest

/-- The clean variant's `renderDots(hotspots)`: resolve the drawing size from
the bounding box with natural-size fallback (`rect.width || naturalWidth`),
then append one marker per hotspot in order. -/
def renderDots (fp : FloorplanImg) (hotspots : List Hotspot) : List CleanDot :=
  renderDotsAux (jsOrQ fp.rect.width fp.naturalWidth)
    (jsOrQ fp.rect.height fp.naturalHeight) 0 hotspots

/-- A marker element created by the 2025.08.05 variant's `initDots`
(lines 82-99).  That variant multiplies `dot.x * width` without the `|| 0`
guard, so an absent coordinate yields JS `NaN`; `none` models that here. -/
structure RawDot where
  left : Option ℚ
  top : Option ℚ
  title : String
  photo : Option String
deriving DecidableEq, Repr

/-- The marker `initDots` builds for hotspot `hp` at index `index`. -/
def mkRawDot (width height : ℚ) (index : ℕ) (hp : Hotspot) : RawDot :=
  { left := hp.x.map (fun v => v * width)
    top := hp.y.map (fun v => v * height)
    title := jsOrStr hp.filename ("Scene " ++ toString (index + 1))
    photo := hp.photo }

/-- The `hotspots.forEach` loop of `initDots`, carrying the running index. -/
def initDotsAux (width height : ℚ) : ℕ → List Hotspot → List RawDot
  | _, [] => []
  | index, hp :: rest =>
    mkRawDot width height index hp :: initDotsAux width height (index + 1) rest

/-- The 2025.08.05 variant's `initDots(hotspots)`: same size resolution as
`renderDots`, then one marker per hotspot in order. -/
def initDots (fp : FloorplanImg) (hotspots : List Hotspot) : List RawDot :=
  initDotsAux (jsOrQ fp.rect.width fp.naturalWidth)
    (jsOrQ fp.rect.height fp.naturalHeight) 0 hotspots

/-- Indexing into the `renderDots` loop: the marker at position `i` is built
from the hotspot at position `i`, with iteration index `n + i`. -/
theorem renderDotsAux_get? (width height : ℚ) (l : List Hotspot) (n i : ℕ) :
    (renderDotsAux width height n l).get? i =
      (l.get? i).map (fun hp => mkCleanDot width height (n + i) hp) := by
  induction l generalizing n i with
  | nil => simp [renderDotsAux]
  | cons hp rest ih =>
    cases i with
    | zero => simp [renderDotsAux]
    | succ j =>
      simp only [renderDotsAux, List.get?_cons_succ, ih]
      have : n + 1 + j = n + (j + 1) := by omega
      rw [this]

/-- Indexing into the `initDots` loop. -/
theorem initDotsAux_get? (width height : ℚ) (l : List Hotspot) (n i : ℕ) :
    (initDotsAux width height n l).get? i =
      (l.get? i).map (fun hp => mkRawDot width height (n + i) hp) := by
  induction l generalizing n i with
  | nil => simp [initDotsAux]
  | cons hp rest ih =>
    cases i with
    | zero => simp [initDotsAux]
    | succ j =>
      simp only [initDotsAux, List.get?_cons_succ, ih]
      have : n + 1 + j = n + (j + 1) := by omega
      rw [this]

/-- C1: for every hotspot with present coordinates `x, y ∈ [0,1]` rendered
against a floorplan whose bounding box has nonzero width `W` and height `H`,
the marker created at that hotspot's position — by the clean variant's
`renderDots` and by the 2025.08.05 variant's `initDots` alike — sits at
pixel offset exactly `(x*W, y*H)` inside the marker container. -/
theorem c1_marker_position (fp : FloorplanImg) (hs : List Hotspot) (i : ℕ)
    (hp : Hotspot) (x y : ℚ)
    (hget : hs.get? i = some hp)
    (hx : hp.x = some x) (hy : hp.y = some y)
    (hx0 : 0 ≤ x) (hx1 : x ≤ 1) (hy0 : 0 ≤ y) (hy1 : y ≤ 1)
    (hW : fp.rect.width ≠ 0) (hH : fp.rect.height ≠ 0) :
    (renderDots fp hs).get? i = some
      { left := x * fp.rect.width, top := y * fp.rect.height
        title := jsOrStr hp.filename ("Scene " ++ toString (i + 1))
        photo := hp.photo } ∧
    (initDots fp hs).get? i = some
      { left := some (x * fp.rect.width), top := some (y * fp.rect.height)
        title := jsOrStr hp.filename ("Scene " ++ toString (i + 1))
        photo := hp.photo } := by
  have hw : jsOrQ fp.rect.width fp.naturalWidth = fp.rect.width := by
    simp [jsOrQ, hW]
  have hh : jsOrQ fp.rect.height fp.naturalHeight = fp.rect.height := by
    simp [jsOrQ, hH]
  have hxn : jsOrNum hp.x 0 = x := by
    rw [hx]; simp only [jsOrNum]
    by_cases h0 : x = 0
    · simp [h0]
    · simp [h0]
  have hyn : jsOrNum hp.y 0 = y := by
    rw [hy]; simp only [jsOrNum]
    by_cases h0 : y = 0
    · simp [h0]
    · simp [h0]
  constructor
  · rw [renderDots, hw, hh, renderDotsAux_get? _ _ _ 0 i, hget]
    simp [mkCleanDot, hxn, hyn]
  · rw [initDots, hw, hh, initDotsAux_get? _ _ _ 0 i, hget]
    simp [mkRawDot, hx, hy]

/-- Witness for C1: the hotspot `{x: 0.5, y: 0.5, photo: "a.jpg"}` on a
200 × 100 floorplan yields a marker at pixel `(100, 50)` in both variants. -/
theorem c1_marker_position_witness :
    (renderDots
        { rect := { width := 200, height := 100 },
          naturalWidth := 400, naturalHeight := 300, complete := true }
        [{ x := some (1/2), y := some (1/2), photo := some "a.jpg",
           filename := none }]).get? 0 = some
      { left := (1/2 : ℚ) * 200, top := (1/2 : ℚ) * 100
        title := jsOrStr none ("Scene " ++ toString (0 + 1))
        photo := some "a.jpg" } ∧
    (initDots
        { rect := { width := 200, height := 100 },
          naturalWidth := 400, naturalHeight := 300, complete := true }
        [{ x := some (1/2), y := some (1/2), photo := some "a.jpg",
           filename := none }]).get? 0 = some
      { left := some ((1/2 : ℚ) * 200), top := some ((1/2 : ℚ) * 100)
        title := jsOrStr none ("Scene " ++ toString (0 + 1))
        photo := some "a.jpg" } :=
  c1_marker_position
    { rect := { width := 200, height := 100 },
      naturalWidth := 400, naturalHeight := 300, complete := true }
    [{ x := some (1/2), y := some (1/2), photo := some "a.jpg",
       filename := none }] 0
    { x := some (1/2), y := some (1/2), photo := some "a.jpg",
      filename := none } (1/2) (1/2)
    rfl rfl rfl (by norm_num) (by norm_num) (by norm_num) (by norm_num)
    (by norm_num) (by norm_num)

/-- One wheel event of the manual-zoom handler (both variants, identical
code): `newFov = fov + delta * 0.004`, then
`clampedFov = Math.max(0.4, Math.min(newFov, 1.5))`. -/
def wheelStep (fov delta : ℚ) : ℚ :=
  max (4/10) (min (fov + delta * (4/1000)) (15/10))

/-- The fov stored in the active view after a sequence of wheel deltas,
starting from the initial scene fov of 1.2. -/
def fovAfter (deltas : List ℚ) : ℚ :=
  deltas.foldl wheelStep (12/10)

/-- Output range of a single clamp step. -/
theorem wheelStep_mem (fov delta : ℚ) :
    4/10 ≤ wheelStep fov delta ∧ wheelStep fov delta ≤ 15/10 := by
  constructor
  · exact le_max_left _ _
  · exact max_le (by norm_num) (min_le_right _ _)

/-- C2: after every wheel event — i.e. for every nonempty delta sequence
applied through the manual-zoom handler starting from fov 1.2 — the fov
stored in the active view lies within `[0.4, 1.5]`. -/
theorem c2_fov_clamped (deltas : List ℚ) (h : deltas ≠ []) :
    4/10 ≤ fovAfter deltas ∧ fovAfter deltas ≤ 15/10 := by
  obtain ⟨l, d, rfl⟩ := List.eq_nil_or_concat deltas |>.resolve_left h
  rw [fovAfter, List.concat_eq_append, List.foldl_append]
  exact wheelStep_mem _ _

/-- Witness for C2 at the concrete delta sequence `[300, -900, 120]`. -/
theorem c2_fov_clamped_witness :
    4/10 ≤ fovAfter [300, -900, 120] ∧ fovAfter [300, -900, 120] ≤ 15/10 :=
  c2_fov_clamped [300, -900, 120] (by decide)

/-- The parse outcome of a fetched `hotspots.json` body: a JSON array of
hotspot records, some other well-formed JSON value (object, number,
string, …), or a body that is not valid JSON at all. -/
inductive JsonBody where
  | malformed : JsonBody
  | arr : List Hotspot → JsonBody
  | nonArray : JsonBody
deriving DecidableEq, Repr

/-- Outcome of the `fetch('hotspots.json')` call: the request either fails at
the network level (the promise rejects) or produces a response with an
`ok` flag (HTTP status in 200-299) and a body. -/
inductive FetchResult where
  | networkError : FetchResult
  | response : Bool → JsonBody → FetchResult
deriving DecidableEq, Repr

/-- A hotspot load counts as failing when the request errors at the network
level, the HTTP status is non-OK, or the body is malformed JSON. -/
def FetchResult.failing : FetchResult → Bool
  | .networkError => true
  | .response false _ => true
  | .response true .malformed => true
  | .response true (.arr _) => false
  | .response true .nonArray => false

/-- Post-state of one clean-variant `loadHotspots()` call: the module-level
`hotspotsData` cache, the marker population of the container, whether the
`.catch` handler showed the blocking alert during this call, and whether an
unhandled error escaped to the caller. -/
structure LoadEffect where
  hotspotsData : List Hotspot
  markers : List CleanDot
  alerted : Bool
  propagated : Bool
deriving DecidableEq, Repr

/-- The clean variant's `loadHotspots()` (2025.07.29, lines 62-76), given the
fetch outcome `res` and the pre-call cache and marker population.  A non-OK
status throws before `res.json()` is called; any rejection lands in the
`.catch`, which alerts and swallows the error.  On success the parsed value
is normalized with `Array.isArray(hotspots) ? hotspots : []` and
`drawDotsSafely()` replaces the marker population. -/
def loadHotspots (fp : FloorplanImg) (res : FetchResult)
    (cache : List Hotspot) (markers : List CleanDot) : LoadEffect :=
  match res with
  | .networkError => ⟨cache, markers, true, false⟩
  | .response false _ => ⟨cache, markers, true, false⟩
  | .response true .malformed => ⟨cache, markers, true, false⟩
  | .response true (.arr hs) => ⟨hs, renderDots fp hs, false, false⟩
  | .response true .nonArray => ⟨[], renderDots fp [], false, false⟩

/-- Post-state of one 2025.08.05 `loadHotspots()` call.  That variant keeps
no module-level hotspot cache: the parsed value flows straight to
`initDots`. -/
structure LoadEffect05 where
  markers : List RawDot
  alerted : Bool
  propagated : Bool
deriving DecidableEq, Repr

/-- The 2025.08.05 variant's `loadHotspots()` (lines 66-80).  It has no
`Array.isArray` normalization: a successful parse is handed to
`initDots(hotspots)`, whose `hotspots.forEach` call throws a TypeError when
the value is not an array; that exception is caught by the same `.catch`,
which shows the blocking alert. -/
def loadHotspots0805 (fp : FloorplanImg) (res : FetchResult)
    (markers : List RawDot) : LoadEffect05 :=
  match res with
  | .networkError => ⟨markers, true, false⟩
  | .response false _ => ⟨markers, true, false⟩
  | .response true .malformed => ⟨markers, true, false⟩
  | .response true (.arr hs) => ⟨markers ++ initDots fp hs, false, false⟩
  | .response true .nonArray => ⟨markers, true, false⟩

/-- The inline fetch of the window-load readiness path (`drawDotsWhenReady`,
2025.08.05 lines 149-166): `fetch('hotspots.json').then(res => res.json())
.then(hotspots => …)` with NO `res.ok` check and NO `.catch`.  `width` and
`height` are the bounding-box sizes captured before the fetch.  A network
error or malformed body becomes an unhandled promise rejection; a non-OK
response whose body parses as an array still renders markers. -/
def windowLoadFetch (width height : ℚ) (res : FetchResult)
    (markers : List RawDot) : LoadEffect05 :=
  match res with
  | .networkError => ⟨markers, false, true⟩
  | .response _ .malformed => ⟨markers, false, true⟩
  | .response _ (.arr hs) => ⟨markers ++ initDotsAux width height 0 hs, false, false⟩
  | .response _ .nonArray => ⟨markers, false, true⟩

/-- The clean variant's `drawDotsSafely()` (2025.07.29, lines 79-84): remove
every existing `.dot` element from the container, then render the cached
dataset from scratch. -/
def drawDotsSafely (fp : FloorplanImg) (data : List Hotspot)
    (markers : List CleanDot) : List CleanDot :=
  renderDots fp data

/-- The 2025.08.05 variant's `drawDotsSafely()` (lines 61-64): remove every
existing `.dot` element document-wide, then run `loadHotspots()`; `res` is
the outcome of the fetch that call issues. -/
def drawDotsSafely0805 (fp : FloorplanImg) (res : FetchResult)
    (markers : List RawDot) : LoadEffect05 :=
  loadHotspots0805 fp res []

/-- C3: redraw is idempotent in both variants.  Running `drawDotsSafely`
twice in succession with the same hotspot data (resp. the same fetch
outcome) leaves exactly the marker population of a single run — in
particular the same number of marker elements, with no accumulation. -/
theorem c3_redraw_idempotent (fp : FloorplanImg) (data : List Hotspot)
    (res : FetchResult) (markers : List CleanDot) (markers05 : List RawDot) :
    drawDotsSafely fp data (drawDotsSafely fp data markers) =
      drawDotsSafely fp data markers ∧
    (drawDotsSafely fp data (drawDotsSafely fp data markers)).length =
      (drawDotsSafely fp data markers).length ∧
    (drawDotsSafely0805 fp res (drawDotsSafely0805 fp res markers05).markers).markers =
      (drawDotsSafely0805 fp res markers05).markers ∧
    (drawDotsSafely0805 fp res (drawDotsSafely0805 fp res markers05).markers).markers.length =
      (drawDotsSafely0805 fp res markers05).markers.length :=
  ⟨rfl, rfl, rfl, rfl⟩

/-- C4 counterexample: a failing hotspot load — here an HTTP 404 response
whose body happens to parse as a one-element array — handled by the inline
window-load fetch of the 2025.08.05 variant shows NO notification and
renders one new marker, contradicting the claim that every failing load
surfaces a notification and renders zero markers. -/
theorem c4_counterexample :
    (FetchResult.response false
        (.arr [{ x := some (1/4), y := some (1/4), photo := some "a.jpg",
                 filename := none }])).failing = true ∧
    (windowLoadFetch 200 100
        (.response false
          (.arr [{ x := some (1/4), y := some (1/4), photo := some "a.jpg",
                   filename := none }]))
        []).alerted = false ∧
    (windowLoadFetch 200 100
        (.response false
          (.arr [{ x := some (1/4), y := some (1/4), photo := some "a.jpg",
                   filename := none }]))
        []).markers.length = 1 := by
  refine ⟨rfl, rfl, ?_⟩
  rfl

/-- C4 amended: for every failing hotspot load issued through the
`loadHotspots` function — in either variant — the `.catch` handler shows the
blocking alert, the cached dataset (clean variant) is left unchanged, the
marker population is unchanged (zero new markers), and no error propagates
to the caller.  (The inline fetch of the 2025.08.05 window-load path is
exempt: it checks no status and has no catch.) -/
theorem c4_loader_failure (fp : FloorplanImg) (res : FetchResult)
    (cache : List Hotspot) (markers : List CleanDot) (markers05 : List RawDot)
    (h : res.failing = true) :
    loadHotspots fp res cache markers = ⟨cache, markers, true, false⟩ ∧
    loadHotspots0805 fp res markers05 = ⟨markers05, true, false⟩ := by
  cases res with
  | networkError => exact ⟨rfl, rfl⟩
  | response ok body =>
    cases ok with
    | false => exact ⟨rfl, rfl⟩
    | true =>
      cases body with
      | malformed => exact ⟨rfl, rfl⟩
      | arr hs => simp [FetchResult.failing] at h
      | nonArray => simp [FetchResult.failing] at h

/-- Witness for C4 amended: a 404 (non-OK response, malformed body) through
`loadHotspots` of either variant alerts, keeps the previous dataset, adds no
marker and propagates nothing. -/
theorem c4_loader_failure_witness :
    (FetchResult.response false .malformed).failing = true ∧
    loadHotspots
        { rect := { width := 200, height := 100 },
          naturalWidth := 400, naturalHeight := 300, complete := true }
        (.response false .malformed) [] [] = ⟨[], [], true, false⟩ ∧
    loadHotspots0805
        { rect := { width := 200, height := 100 },
          naturalWidth := 400, naturalHeight := 300, complete := true }
        (.response false .malformed) [] = ⟨[], true, false⟩ :=
  ⟨rfl,
    c4_loader_failure
      { rect := { width := 200, height := 100 },
        naturalWidth := 400, naturalHeight := 300, complete := true }
      (.response false .malformed) [] [] [] rfl⟩

/-- Outcome of the poll-with-retry readiness strategy `drawDotsWhenReady`:
how many readiness checks ran, the delay accumulated by the 100ms timers,
how many console warnings were logged, whether the ready branch (clear dots,
fetch, draw) ran, and whether a user-facing alert was shown. -/
structure PollResult where
  checks : ℕ
  elapsedMs : ℕ
  warned : ℕ
  rendered : Bool
  alerted : Bool
deriving DecidableEq, Repr

/-- The recursion of `drawDotsWhenReady(retries)` (both files, identical
code): check `floorplan.complete && rect.width > 0 && rect.height > 0`
(abstracted as `ready k` for the k-th check); if ready, clear dots and run
the inline fetch-and-draw; else if `retries > 0`, re-check after 100ms with
`retries - 1`; else log a single `console.warn` and give up. -/
def pollDots (ready : ℕ → Bool) : ℕ → ℕ → PollResult
  | 0, k =>
    if ready k then ⟨k + 1, 100 * k, 0, true, false⟩
    else ⟨k + 1, 100 * k, 1, false, false⟩
  | retries + 1, k =>
    if ready k then ⟨k + 1, 100 * k, 0, true, false⟩
    else pollDots ready retries (k + 1)

/-- The entry call `drawDotsWhenReady()` with the default budget of 10
retries, starting at check 0. -/
def drawDotsWhenReady (ready : ℕ → Bool) : PollResult :=
  pollDots ready 10 0

/-- Bounded check count of the poll loop: starting at check `k` with
`retries` retries left, at most `retries + 1` checks run in total. -/
theorem pollDots_checks_le (ready : ℕ → Bool) (retries k : ℕ) :
    (pollDots ready retries k).checks ≤ k + retries + 1 := by
  induction retries generalizing k with
  | zero =>
    by_cases h : ready k = true <;> simp [pollDots, h]
  | succ r ih =>
    by_cases h : ready k = true
    · simp [pollDots, h]
    · have := ih (k + 1)
      simp only [pollDots, h, if_neg, Bool.false_eq_true, if_false]
      omega

/-- C5: the poll-with-retry readiness strategy re-checks on a fixed 100ms
interval for at most 10 retries (11 checks in all); it always terminates,
and when the floorplan never becomes ready it stops after exactly 1000ms of
timer delay with exactly one console warning, no rendering, and no
user-facing alert. -/
theorem c5_poll_gives_up (ready : ℕ → Bool) (h : ∀ k, ready k = false) :
    drawDotsWhenReady ready = ⟨11, 1000, 1, false, false⟩ ∧
    (∀ g : ℕ → Bool, (drawDotsWhenReady g).checks ≤ 11) := by
  constructor
  · simp [drawDotsWhenReady, pollDots, h]
  · intro g
    have := pollDots_checks_le g 10 0
    simpa [drawDotsWhenReady] using this

/-- Witness for C5: with a floorplan that never reports ready, the poll
gives up after 11 checks, 1000ms, one warning, no markers, no alert. -/
theorem c5_poll_gives_up_witness :
    drawDotsWhenReady (fun _ => false) = ⟨11, 1000, 1, false, false⟩ ∧
    (∀ g : ℕ → Bool, (drawDotsWhenReady g).checks ≤ 11) :=
  c5_poll_gives_up (fun _ => false) (fun _ => rfl)

/-- Module state of the clean variant relevant to the map toggle: panel
visibility (`mapPanel.style.display === 'block'`), the `hotspotsData` cache,
the marker population, and how many hotspot fetches were issued. -/
structure CleanState where
  panelVisible : Bool
  hotspotsData : List Hotspot
  markers : List CleanDot
  fetchCount : ℕ
deriving DecidableEq, Repr

/-- The clean variant's `mapToggle` click handler (2025.07.29, lines 47-59):
flip the panel display; when it just became visible, redraw from the cache
if `hotspotsData.length` is truthy, else run `loadHotspots()` (one fetch,
outcome `res`).  Hiding has no other effect. -/
def mapToggleClick (fp : FloorplanImg) (res : FetchResult) (s : CleanState) :
    CleanState :=
  if s.panelVisible then
    { s with panelVisible := false }
  else
    if 0 < s.hotspotsData.length then
      { s with panelVisible := true
               markers := drawDotsSafely fp s.hotspotsData s.markers }
    else
      let eff := loadHotspots fp res s.hotspotsData s.markers
      { panelVisible := true, hotspotsData := eff.hotspotsData
        markers := eff.markers, fetchCount := s.fetchCount + 1 }

/-- Module state of the 2025.08.05 variant relevant to the toggle: it keeps
no hotspot cache, only panel visibility and the marker population. -/
structure State05 where
  panelVisible : Bool
  markers : List RawDot
  fetchCount : ℕ
deriving DecidableEq, Repr

/-- The 2025.08.05 `mapToggle` click handler (lines 41-59): flip the panel;
when it just became visible and the floorplan image is complete, run
`drawDotsSafely()` (clear all dots, then `loadHotspots()` — a fresh fetch
every time); with an incomplete image the draw is deferred to the image's
load event. -/
def mapToggleClick0805 (fp : FloorplanImg) (res : FetchResult) (s : State05) :
    State05 :=
  if s.panelVisible then
    { s with panelVisible := false }
  else
    if fp.complete then
      let eff := drawDotsSafely0805 fp res s.markers
      { panelVisible := true, markers := eff.markers
        fetchCount := s.fetchCount + 1 }
    else
      { s with panelVisible := true }

/-- C6: the map panel controller's two-state machine.  Clean variant:
HIDDEN→VISIBLE with a nonempty cache shows the panel and redraws from the
cache with no fetch; with an empty cache it shows the panel, issues exactly
one fetch, and on a successful array response caches the data and renders
its markers; VISIBLE→HIDDEN only hides the panel — no fetch, no marker
change.  The 2025.08.05 variant never has a cache, so every HIDDEN→VISIBLE
(with the image complete) triggers loader-then-renderer, and VISIBLE→HIDDEN
again only hides the panel. -/
theorem c6_toggle_state_machine (fp : FloorplanImg) (res : FetchResult)
    (s : CleanState) (s05 : State05) :
    (s.panelVisible = false → 0 < s.hotspotsData.length →
      mapToggleClick fp res s =
        { panelVisible := true, hotspotsData := s.hotspotsData
          markers := renderDots fp s.hotspotsData
          fetchCount := s.fetchCount }) ∧
    (s.panelVisible = false → s.hotspotsData.length = 0 →
      (mapToggleClick fp res s).panelVisible = true ∧
      (mapToggleClick fp res s).fetchCount = s.fetchCount + 1 ∧
      (∀ hs : List Hotspot, res = .response true (.arr hs) →
        (mapToggleClick fp res s).hotspotsData = hs ∧
        (mapToggleClick fp res s).markers = renderDots fp hs)) ∧
    (s.panelVisible = true →
      mapToggleClick fp res s = { s with panelVisible := false }) ∧
    (s05.panelVisible = false → fp.complete = true →
      mapToggleClick0805 fp res s05 =
        { panelVisible := true
          markers := (drawDotsSafely0805 fp res s05.markers).markers
          fetchCount := s05.fetchCount + 1 }) ∧
    (s05.panelVisible = true →
      mapToggleClick0805 fp res s05 = { s05 with panelVisible := false }) := by
  refine ⟨?_, ?_, ?_, ?_, ?_⟩
  · intro hv hd
    simp [mapToggleClick, hv, hd, drawDotsSafely]
  · intro hv hd
    refine ⟨?_, ?_, ?_⟩
    · simp [mapToggleClick, hv, hd]
    · simp [mapToggleClick, hv, hd]
    · intro hs hres
      subst hres
      simp [mapToggleClick, hv, hd, loadHotspots]
  · intro hv
    simp [mapToggleClick, hv]
  · intro hv hc
    simp [mapToggleClick0805, hv, hc]
  · intro hv
    simp [mapToggleClick0805, hv]

/-- Witness for C6: concrete transitions of the clean variant — showing the
panel with a one-hotspot cache redraws it without fetching, and hiding a
visible panel changes nothing but the visibility flag. -/
theorem c6_toggle_state_machine_witness :
    mapToggleClick
        { rect := { width := 200, height := 100 },
          naturalWidth := 400, naturalHeight := 300, complete := true }
        .networkError
        { panelVisible := false
          hotspotsData := [{ x := some (1/2), y := some (1/2),
                             photo := some "a.jpg", filename := none }]
          markers := [], fetchCount := 0 } =
      { panelVisible := true
        hotspotsData := [{ x := some (1/2), y := some (1/2),
                           photo := some "a.jpg", filename := none }]
        markers := renderDots
          { rect := { width := 200, height := 100 },
            naturalWidth := 400, naturalHeight := 300, complete := true }
          [{ x := some (1/2), y := some (1/2), photo := some "a.jpg",
             filename := none }]
        fetchCount := 0 } ∧
    mapToggleClick0805
        { rect := { width := 200, height := 100 },
          naturalWidth := 400, naturalHeight := 300, complete := true }
        .networkError
        { panelVisible := true, markers := [], fetchCount := 3 } =
      { panelVisible := false, markers := [], fetchCount := 3 } :=
  ⟨(c6_toggle_state_machine
      { rect := { width := 200, height := 100 },
        naturalWidth := 400, naturalHeight := 300, complete := true }
      .networkError
      { panelVisible := false
        hotspotsData := [{ x := some (1/2), y := some (1/2),
                           photo := some "a.jpg", filename := none }]
        markers := [], fetchCount := 0 }
      { panelVisible := true, markers := [], fetchCount := 3 }).1
      rfl (by decide),
    (c6_toggle_state_machine
      { rect := { width := 200, height := 100 },
        naturalWidth := 400, naturalHeight := 300, complete := true }
      .networkError
      { panelVisible := false
        hotspotsData := [{ x := some (1/2), y := some (1/2),
                           photo := some "a.jpg", filename := none }]
        markers := [], fetchCount := 0 }
      { panelVisible := true, markers := [], fetchCount := 3 }).2.2.2.2
      rfl⟩

/-- Observable effects of running the clean variant's whole script
(2025.07.29): the guard alert, viewer construction, panel visibility after
the IIFE, fetches issued, and the resulting cache and markers. -/
structure CleanStartup where
  guardAlerted : Bool
  viewerConstructed : Bool
  panelShown : Bool
  fetchCount : ℕ
  hotspotsData : List Hotspot
  markers : List CleanDot
  alerted : Bool
deriving DecidableEq, Repr

/-- Startup of the clean variant (2025.07.29, whole IIFE): if Marzipano is
absent, alert once and return — nothing else runs.  Otherwise construct the
viewer, show the panel, and — when the floorplan is already complete with a
truthy `naturalWidth` — run `ensureDots()`, which with the empty initial
cache runs `loadHotspots()` (outcome `res`); otherwise the draw waits for
the image's load event. -/
def startupClean (marzipanoPresent : Bool) (fp : FloorplanImg)
    (res : FetchResult) : CleanStartup :=
  if !marzipanoPresent then
    { guardAlerted := true, viewerConstructed := false, panelShown := false
      fetchCount := 0, hotspotsData := [], markers := [], alerted := false }
  else if fp.complete ∧ fp.naturalWidth ≠ 0 then
    let eff := loadHotspots fp res [] []
    { guardAlerted := false, viewerConstructed := true, panelShown := true
      fetchCount := 1, hotspotsData := eff.hotspotsData
      markers := eff.markers, alerted := eff.alerted }
  else
    { guardAlerted := false, viewerConstructed := true, panelShown := true
      fetchCount := 0, hotspotsData := [], markers := [], alerted := false }

/-- Observable effects of loading the 2025.08.05 script: the IIFE's guard
alert and viewer construction, plus the separately-registered window-load
handler's panel show, readiness poll, and inline fetch. -/
structure Startup05 where
  guardAlerted : Bool
  viewerConstructed : Bool
  panelShown : Bool
  fetchIssued : Bool
  markers : List RawDot
  propagated : Bool
deriving DecidableEq, Repr

/-- Startup of the 2025.08.05 script: the IIFE aborts after the alert when
Marzipano is absent, but the `window.addEventListener("load", …)` handler
(lines 135-175) sits OUTSIDE the IIFE and runs regardless: it shows the map
panel and runs `drawDotsWhenReady()`; when the poll finds the floorplan
ready it runs the inline fetch (`windowLoadFetch`, outcome `res`). -/
def startup0805 (marzipanoPresent : Bool) (fp : FloorplanImg)
    (ready : ℕ → Bool) (res : FetchResult) : Startup05 :=
  if (drawDotsWhenReady ready).rendered then
    let eff := windowLoadFetch fp.rect.width fp.rect.height res []
    { guardAlerted := !marzipanoPresent, viewerConstructed := marzipanoPresent
      panelShown := true, fetchIssued := true
      markers := eff.markers, propagated := eff.propagated }
  else
    { guardAlerted := !marzipanoPresent, viewerConstructed := marzipanoPresent
      panelShown := true, fetchIssued := false
      markers := [], propagated := false }

/-- C7 counterexample: with Marzipano absent, a ready floorplan and a
successful fetch, the 2025.08.05 script still issues the hotspot fetch and
draws a marker (the window-load handler is outside the guard IIFE) —
contradicting the claim that nothing else of the program is initialized, no
hotspot fetch is issued, and no markers are drawn. -/
theorem c7_counterexample :
    (startup0805 false
        { rect := { width := 200, height := 100 },
          naturalWidth := 400, naturalHeight := 300, complete := true }
        (fun _ => true)
        (.response true
          (.arr [{ x := some (1/2), y := some (1/2), photo := some "a.jpg",
                   filename := none }]))).fetchIssued = true ∧
    (startup0805 false
        { rect := { width := 200, height := 100 },
          naturalWidth := 400, naturalHeight := 300, complete := true }
        (fun _ => true)
        (.response true
          (.arr [{ x := some (1/2), y := some (1/2), photo := some "a.jpg",
                   filename := none }]))).markers.length = 1 ∧
    (startup0805 false
        { rect := { width := 200, height := 100 },
          naturalWidth := 400, naturalHeight := 300, complete := true }
        (fun _ => true)
        (.response true
          (.arr [{ x := some (1/2), y := some (1/2), photo := some "a.jpg",
                   filename := none }]))).panelShown = true := by
  refine ⟨rfl, ?_, rfl⟩
  rfl

/-- C7 amended: with the viewer library absent, the guard shows a single
blocking alert and aborts the IIFE, so no viewer is constructed; in the
clean variant nothing else happens at all (no panel, no fetch, no markers,
no further alert); in the 2025.08.05 variant the window-load handler,
registered outside the IIFE, still shows the panel and issues the hotspot
fetch exactly when the readiness poll succeeds. -/
theorem c7_library_guard (fp : FloorplanImg) (res : FetchResult)
    (ready : ℕ → Bool) :
    startupClean false fp res =
      { guardAlerted := true, viewerConstructed := false, panelShown := false
        fetchCount := 0, hotspotsData := [], markers := [], alerted := false } ∧
    (startup0805 false fp ready res).guardAlerted = true ∧
    (startup0805 false fp ready res).viewerConstructed = false ∧
    (startup0805 false fp ready res).panelShown = true ∧
    (startup0805 false fp ready res).fetchIssued =
      (drawDotsWhenReady ready).rendered := by
  refine ⟨rfl, ?_, ?_, ?_, ?_⟩ <;>
    by_cases h : (drawDotsWhenReady ready).rendered = true <;>
      simp [startup0805, h]

/-- C8 counterexample: a successful fetch whose body parses to a non-array,
handled by the 2025.08.05 variant's `loadHotspots`, shows the blocking alert
(`initDots`'s `hotspots.forEach` throws a TypeError that lands in the
`.catch`) — contradicting the claim that a non-array result is coerced to an
empty sequence with no notification. -/
theorem c8_counterexample :
    (loadHotspots0805
        { rect := { width := 200, height := 100 },
          naturalWidth := 400, naturalHeight := 300, complete := true }
        (.response true .nonArray) []).alerted = true := rfl

/-- C8 amended: only the clean variant's `loadHotspots` coerces a non-array
parse result to an empty sequence (`Array.isArray(hotspots) ? hotspots :
[]`): its cache becomes empty, zero markers are rendered, and neither an
alert nor an error occurs.  The 2025.08.05 variant's `loadHotspots` instead
passes the value to `initDots`, whose `forEach` call throws; the `.catch`
shows the blocking alert, the marker population is unchanged, and no error
escapes. -/
theorem c8_nonarray_normalization (fp : FloorplanImg) (cache : List Hotspot)
    (markers : List CleanDot) (markers05 : List RawDot) :
    loadHotspots fp (.response true .nonArray) cache markers =
      ⟨[], [], false, false⟩ ∧
    loadHotspots0805 fp (.response true .nonArray) markers05 =
      ⟨markers05, true, false⟩ :=
  ⟨rfl, rfl⟩

/-- State of the clean variant's debounced resize handling (2025.07.29,
lines 142-148): the fire time of the pending `setTimeout` (if any) and the
times at which a debounced redraw actually fired. -/
structure DebounceState where
  pending : Option ℚ
  renders : List ℚ
deriving DecidableEq, Repr

/-- Passage of time up to `now`: a pending timer scheduled strictly before
`now` fires (its redraw runs) and is cleared. -/
def fireDue (now : ℚ) (s : DebounceState) : DebounceState :=
  match s.pending with
  | some t => if t < now then ⟨none, s.renders ++ [t]⟩ else s
  | none => s

/-- One `resize` event at time `now`: the handler returns early when
`hotspotsData.length` is falsy; otherwise it runs `clearTimeout(resizeTimer)`
and `resizeTimer = setTimeout(drawDotsSafely, 100)` — cancelling any pending
timer and scheduling a redraw at `now + 100`. -/
def resizeEvent (hasData : Bool) (now : ℚ) (s : DebounceState) : DebounceState :=
  let s := fireDue now s
  if hasData then ⟨some (now + 100), s.renders⟩ else s

/-- A burst of resize events at the given times, starting with no pending
timer and no redraw yet. -/
def processResizes (hasData : Bool) (times : List ℚ) : DebounceState :=
  times.foldl (fun s t => resizeEvent hasData t s) ⟨none, []⟩

/-- Quiescence after the burst: the pending timer, if any, fires. -/
def flushAll (s : DebounceState) : List ℚ :=
  s.renders ++ s.pending.toList

/-- Inside a burst whose consecutive gaps are under 100ms, each event finds
the previous timer not yet due, cancels it, and re-schedules: the state
stays "one pending timer at last-event + 100, nothing fired". -/
theorem processResizes_chain (ts : List ℚ) (t : ℚ)
    (h : List.Chain (fun a b : ℚ => a < b ∧ b - a < 100) t ts) :
    List.foldl (fun s x => resizeEvent true x s) ⟨some (t + 100), []⟩ ts =
      ⟨some (ts.getLastD t + 100), []⟩ := by
  induction ts generalizing t with
  | nil => rfl
  | cons u us ih =>
    rcases h with _ | ⟨⟨hlt, hgap⟩, hchain⟩
    have hstep : resizeEvent true u ⟨some (t + 100), []⟩ =
        ⟨some (u + 100), []⟩ := by
      have hnot : ¬ t + 100 < u := by linarith
      simp [resizeEvent, fireDue, hnot]
    rw [List.foldl_cons, hstep, ih u hchain, List.getLastD_cons]

/-- C9: for every burst of N ≥ 1 resize events, each arriving within 100ms
of the previous one, with hotspot data present, exactly one debounced redraw
occurs, 100ms after the last event of the burst; moreover each resize event
arriving before a pending timer's fire time cancels it and restarts the
100ms window, and with no hotspot data the handler does nothing. -/
theorem c9_resize_debounce (t : ℚ) (ts : List ℚ)
    (hchain : List.Chain (fun a b : ℚ => a < b ∧ b - a < 100) t ts) :
    flushAll (processResizes true (t :: ts)) = [ts.getLastD t + 100] ∧
    (∀ (p now : ℚ) (r : List ℚ), now < p →
      resizeEvent true now ⟨some p, r⟩ = ⟨some (now + 100), r⟩) ∧
    (∀ now : ℚ, resizeEvent false now ⟨none, []⟩ = ⟨none, []⟩) := by
  refine ⟨?_, ?_, ?_⟩
  · have h0 : resizeEvent true t (⟨none, []⟩ : DebounceState) =
        ⟨some (t + 100), []⟩ := by
      simp [resizeEvent, fireDue]
    rw [processResizes, List.foldl_cons, h0, processResizes_chain ts t hchain]
    rfl
  · intro p now r hlt
    have hnot : ¬ p < now := by linarith
    simp [resizeEvent, fireDue, hnot]
  · intro now
    rfl

/-- Witness for C9: the burst at times 0, 50, 90 (gaps 50 and 40, both
under 100) produces exactly one redraw, at time 190. -/
theorem c9_resize_debounce_witness :
    flushAll (processResizes true ((0 : ℚ) :: [50, 90])) =
      [List.getLastD [(50 : ℚ), 90] 0 + 100] :=
  (c9_resize_debounce 0 [50, 90]
    (List.Chain.cons (by norm_num)
      (List.Chain.cons (by norm_num) List.Chain.nil))).1

/-- The active rectilinear view's parameters. -/
structure ViewParams where
  yaw : ℚ
  pitch : ℚ
  fov : ℚ
deriving DecidableEq, Repr

/-- Viewer-adapter state: the module-level `currentView` reference and the
list of image paths `loadScene` has been invoked with, in order. -/
structure ViewerState where
  currentView : Option ViewParams
  scenesLoaded : List String
deriving DecidableEq, Repr

/-- The clean variant's `loadScene(imagePath)` (2025.07.29, lines 117-140):
build a fresh view `{yaw: 0, pitch: 0, fov: 1.2}`, create and switch to the
new scene, and replace the module-level `currentView` reference. -/
def loadScene (imagePath : String) (vs : ViewerState) : ViewerState :=
  { currentView := some ⟨0, 0, 12/10⟩
    scenesLoaded := vs.scenesLoaded ++ [imagePath] }

/-- The click handler the clean variant attaches to each marker
(2025.07.29, lines 108-110): `if (hp.photo) loadScene(hp.photo);` — the
scene load is guarded by JS truthiness of the captured `photo` field. -/
def cleanDotClick (d : CleanDot) (vs : ViewerState) : ViewerState :=
  if jsTruthyStr d.photo then loadScene (d.photo.getD "") vs else vs

/-- C10: in the clean variant, clicking a marker whose hotspot record has no
truthy `photo` field performs no scene load at all — `loadScene` is never
invoked, and the `currentView` reference is left unchanged. -/
theorem c10_click_without_photo (d : CleanDot) (vs : ViewerState)
    (h : jsTruthyStr d.photo = false) :
    cleanDotClick d vs = vs ∧
    (cleanDotClick d vs).scenesLoaded = vs.scenesLoaded ∧
    (cleanDotClick d vs).currentView = vs.currentView := by
  have : cleanDotClick d vs = vs := by
    simp [cleanDotClick, h]
  exact ⟨this, by rw [this], by rw [this]⟩

/-- Witness for C10: clicking a marker carrying an empty `photo` path, with
no active view and no scene loaded, changes nothing. -/
theorem c10_click_without_photo_witness :
    jsTruthyStr (some "") = false ∧
    cleanDotClick { left := 10, top := 20, title := "Scene 1", photo := some "" }
        { currentView := none, scenesLoaded := [] } =
      { currentView := none, scenesLoaded := [] } :=
  ⟨rfl,
    (c10_click_without_photo
      { left := 10, top := 20, title := "Scene 1", photo := some "" }
      { currentView := none, scenesLoaded := [] } rfl).1⟩

end Walkarounds
